/-
Verification development for the DisposAI client application.

The definitions below are a shallow embedding of the TypeScript sources:
  - src/store/gameStore.ts       (points, streak, fish bowl, scan history, achievements)
  - src/store/inventoryStore.ts  (medicine inventory with expiry bookkeeping)
  - src/services/openai.ts       (LLM-backed point calculation and fish selection)
  - src/services/ocr.ts          (Tesseract OCR wrapper)
  - the Scan page and the ActionConfirmation component (scan wizard step machine)

Modelling conventions: JavaScript numbers that only ever hold integral values
are modelled as Int (timestamps are epoch milliseconds); nullable and optional
values are modelled as Option; external non-determinism (Date.now, random ids
and names, LLM replies, OCR results) is passed in as explicit parameters; an
LLM or network call that may fail delivers an Option, where none is the
rejected-promise case handled by the catch block of the source.
-/
import Mathlib

namespace DisposAI

/-! ## gameStore.ts: data model -/

inductive ActionTaken
  | takeBack
  | sealedDisposal
  | other
  | skipped
deriving DecidableEq, Repr

inductive ActionQuality
  | great
  | okay
  | risky
deriving DecidableEq, Repr

inductive Impact
  | low
  | medium
  | high
  | critical
deriving DecidableEq, Repr

inductive AchievementType
  | disposals
  | streak
  | points
deriving DecidableEq, Repr

structure ScanRecord where
  id : String
  medicineId : String
  medicineName : String
  detectedText : String
  confidence : Int
  disposalMethod : String
  safetyRating : String
  actionTaken : Option ActionTaken
  actionQuality : Option ActionQuality
  pointsEarned : Int
  timestamp : Int
  imageUrl : Option String
deriving DecidableEq, Repr

structure Achievement where
  id : String
  title : String
  description : String
  icon : String
  unlockedAt : Option Int := none
  requirement : Int
  type : AchievementType
deriving DecidableEq, Repr

/-- Fish record of gameStore.ts. The type field is a String because
updateScanAction stores expectedFishType through an unchecked cast
(expectedFishType as FishType), so arbitrary strings can reach it. -/
structure Fish where
  id : String
  type : String
  name : String
  addedAt : Int
  milestone : Option String := none
  medicineName : Option String := none
  impactLevel : Option Impact := none
deriving DecidableEq, Repr

structure GameState where
  totalPoints : Int
  currentStreak : Int
  longestStreak : Int
  lastActionDate : Option String
  fish : List Fish
  waterClarity : Int
  scanHistory : List ScanRecord
  totalDisposals : Int
  achievements : List Achievement
deriving DecidableEq, Repr

def defaultAchievements : List Achievement :=
  [ { id := "first-disposal", title := "First Safe Disposal",
      description := "Complete your first safe medication disposal",
      icon := "seedling", requirement := 1, type := .disposals },
    { id := "week-streak", title := "7-Day Eco Streak",
      description := "Maintain a 7-day disposal streak",
      icon := "fire", requirement := 7, type := .streak },
    { id := "water-protector", title := "Water Protector",
      description := "Complete 10 safe disposals",
      icon := "droplet", requirement := 10, type := .disposals },
    { id := "eco-champion", title := "Eco Champion",
      description := "Earn 500 eco points",
      icon := "trophy", requirement := 500, type := .points },
    { id := "fish-friend", title := "Fish Friend",
      description := "Grow your aquarium to 5 fish",
      icon := "fish", requirement := 5, type := .disposals },
    { id := "planet-guardian", title := "Planet Guardian",
      description := "Complete 25 safe disposals",
      icon := "globe", requirement := 25, type := .disposals } ]

def initialGameState : GameState :=
  { totalPoints := 0, currentStreak := 0, longestStreak := 0,
    lastActionDate := none, fish := [], waterClarity := 50,
    scanHistory := [], totalDisposals := 0, achievements := defaultAchievements }

/-! ## gameStore.ts: actions -/

/-- Argument record of addScan: a ScanRecord minus the generated id and
timestamp (Omit of ScanRecord over id and timestamp in the source). -/
structure ScanData where
  medicineId : String
  medicineName : String
  detectedText : String
  confidence : Int
  disposalMethod : String
  safetyRating : String
  actionTaken : Option ActionTaken := none
  actionQuality : Option ActionQuality := none
  pointsEarned : Int
  imageUrl : Option String := none
deriving DecidableEq, Repr

def mkScanRecord (newId : String) (now : Int) (scan : ScanData) : ScanRecord :=
  { id := newId, timestamp := now,
    medicineId := scan.medicineId, medicineName := scan.medicineName,
    detectedText := scan.detectedText, confidence := scan.confidence,
    disposalMethod := scan.disposalMethod, safetyRating := scan.safetyRating,
    actionTaken := scan.actionTaken, actionQuality := scan.actionQuality,
    pointsEarned := scan.pointsEarned, imageUrl := scan.imageUrl }

/-- addScan: the fresh id (crypto.randomUUID) and timestamp (new Date) are
passed in as parameters; the new record is prepended to scanHistory. -/
def addScan (newId : String) (now : Int) (scan : ScanData) (s : GameState) : GameState :=
  { s with scanHistory := mkScanRecord newId now scan :: s.scanHistory }

def clarityBonus (quality : Option ActionQuality) : Int :=
  if quality = some ActionQuality.great then 5
  else if quality = some ActionQuality.okay then 2
  else 0

/-- Core state update of updateScanAction (the set block of the source):
points to add, updated history, disposal counter and water clarity. -/
def updateScanCore (scanId : String) (action : Option ActionTaken)
    (quality : Option ActionQuality) (calculatedPoints : Option Int)
    (s : GameState) : GameState :=
  let scan := s.scanHistory.find? (fun sc => decide (sc.id = scanId))
  let pointsToAdd : Int :=
    match calculatedPoints with
    | some p => if 0 < p then p else (match scan with | some sc => sc.pointsEarned | none => 0)
    | none => match scan with | some sc => sc.pointsEarned | none => 0
  let updatedHistory := s.scanHistory.map (fun sc =>
    if sc.id = scanId then
      { sc with actionTaken := action, actionQuality := quality, pointsEarned := pointsToAdd }
    else sc)
  let newTotalDisposals :=
    if action ≠ some ActionTaken.skipped then s.totalDisposals + 1 else s.totalDisposals
  let newClarity := min 100 (s.waterClarity + clarityBonus quality)
  { s with scanHistory := updatedHistory,
           totalPoints := s.totalPoints + pointsToAdd,
           totalDisposals := newTotalDisposals,
           waterClarity := newClarity }

/-- updateStreak: today and yesterday are the date strings produced by
Date.toDateString in the source, passed in as parameters. -/
def updateStreak (today yesterday : String) (s : GameState) : GameState :=
  if s.lastActionDate = some today then s
  else if s.lastActionDate = some yesterday then
    { s with currentStreak := s.currentStreak + 1,
             longestStreak := max s.longestStreak (s.currentStreak + 1),
             lastActionDate := some today }
  else
    { s with currentStreak := 1,
             longestStreak := max s.longestStreak 1,
             lastActionDate := some today }

/-- Unlock condition of checkAchievements for one achievement. -/
def shouldUnlock (a : Achievement) (s : GameState) : Prop :=
  (a.type = AchievementType.disposals ∧ a.requirement ≤ s.totalDisposals)
  ∨ (a.type = AchievementType.streak ∧ a.requirement ≤ s.currentStreak)
  ∨ (a.type = AchievementType.points ∧ a.requirement ≤ s.totalPoints)

instance (a : Achievement) (s : GameState) : Decidable (shouldUnlock a s) := by
  unfold shouldUnlock; infer_instance

def checkAchievements (now : Int) (s : GameState) : GameState :=
  { s with achievements := s.achievements.map (fun a =>
      if a.unlockedAt.isSome then a
      else if shouldUnlock a s then { a with unlockedAt := some now }
      else a) }

/-- addFish: fresh id and random name are parameters; the fish is appended. -/
def addFish (newId name : String) (now : Int) (type : String)
    (milestone : Option String) (medicineName : Option String)
    (impactLevel : Option Impact) (s : GameState) : GameState :=
  { s with fish := s.fish ++
      [{ id := newId, type := type, name := name, addedAt := now,
         milestone := milestone, medicineName := medicineName,
         impactLevel := impactLevel }] }

def milestones : List Int := [1, 3, 5, 10, 15, 25]

def milestoneFishTypes : List String :=
  ["goldfish", "guppy", "tetra", "clownfish", "angelfish", "betta"]

/-- Fish additions at the end of updateScanAction. When expectedFishType is
absent the source resolves the fish type through an asynchronous LLM call
whose callback runs after this transition, so that branch leaves the state
unchanged here. The milestone fish of the legacy branch is synchronous. -/
def expectedFishStage (scanId : String) (action : Option ActionTaken)
    (quality : Option ActionQuality) (environmentalImpact : Option Impact)
    (expectedFishType : Option String) (fishId fishName : String)
    (now : Int) (s : GameState) : GameState :=
  if action ≠ some ActionTaken.skipped ∧ quality = some ActionQuality.great
      ∧ environmentalImpact.isSome then
    match s.scanHistory.find? (fun sc => decide (sc.id = scanId)), expectedFishType with
    | some sc, some ft =>
        addFish fishId fishName now ft
          (some ("Saved by disposing " ++ sc.medicineName ++ " properly!"))
          (some sc.medicineName) environmentalImpact s
    | some _, none => s
    | none, _ => s
  else s

def milestoneFishStage (mFishId mFishName : String) (now : Int) (s : GameState) : GameState :=
  if milestones.contains s.totalDisposals then
    addFish mFishId mFishName now
      (milestoneFishTypes.getD (milestones.indexOf s.totalDisposals) "goldfish")
      (some (toString s.totalDisposals ++ " safe disposals!")) none none s
  else s

def fishStage (scanId : String) (action : Option ActionTaken)
    (quality : Option ActionQuality) (environmentalImpact : Option Impact)
    (expectedFishType : Option String) (fishId fishName mFishId mFishName : String)
    (now : Int) (s : GameState) : GameState :=
  milestoneFishStage mFishId mFishName now
    (expectedFishStage scanId action quality environmentalImpact expectedFishType
      fishId fishName now s)

/-- updateScanAction of gameStore.ts: the core set block, then updateStreak,
then checkAchievements, then the fish additions. The medicineName parameter
is part of the source signature but unused by its body. -/
def updateScanAction (scanId : String) (action : Option ActionTaken)
    (quality : Option ActionQuality) (environmentalImpact : Option Impact)
    (medicineName : Option String) (calculatedPoints : Option Int)
    (expectedFishType : Option String) (today yesterday : String) (now : Int)
    (fishId fishName mFishId mFishName : String) (s : GameState) : GameState :=
  fishStage scanId action quality environmentalImpact expectedFishType
    fishId fishName mFishId mFishName now
    (checkAchievements now (updateStreak today yesterday
      (updateScanCore scanId action quality calculatedPoints s)))

/-! ## JavaScript string primitives

The built-in String functions of Lean use well-founded recursion over byte
positions and do not reduce inside the kernel, so the JavaScript string
operations used by the sources are modelled structurally over List Char. -/

theorem length_dropWhile_le (p : Char → Bool) (l : List Char) :
    (l.dropWhile p).length ≤ l.length := by
  induction l with
  | nil => simp [List.dropWhile]
  | cons c t ih =>
    simp only [List.dropWhile]
    split
    · exact Nat.le_succ_of_le ih
    · exact Nat.le_refl _

/-- JavaScript String.prototype.trim modelled on the character list. -/
def trimList (l : List Char) : List Char :=
  ((l.dropWhile Char.isWhitespace).reverse.dropWhile Char.isWhitespace).reverse

def jsTrim (s : String) : String := String.mk (trimList s.data)

/-- JavaScript String.prototype.toLowerCase modelled on the character list. -/
def jsToLower (s : String) : String := String.mk (s.data.map Char.toLower)

def listIncludes (hay needle : List Char) : Bool :=
  needle.isPrefixOf hay ||
    match hay with
    | [] => false
    | _ :: t => listIncludes t needle

/-- JavaScript String.prototype.includes. -/
def jsIncludes (s sub : String) : Bool := listIncludes s.data sub.data

/-! ## inventoryStore.ts -/

structure InventoryItem where
  id : String
  medicineName : String
  genericName : String
  brandNames : List String
  expiryDate : Int
  imageUrl : String
  addedAt : Int
  category : String
  form : String
  isExpired : Bool
  daysUntilExpiry : Int
  disposalInstructions : Option String := none
  environmentalRisk : Option Impact := none
  isAntibiotic : Option Bool := none
  isControlled : Option Bool := none
deriving DecidableEq, Repr

structure InventoryState where
  items : List InventoryItem
  notificationsEnabled : Bool
  lastNotificationCheck : Option Int
deriving DecidableEq, Repr

def initialInventoryState : InventoryState :=
  { items := [], notificationsEnabled := false, lastNotificationCheck := none }

/-- Math.ceil of an integer division with a positive divisor, as used for the
days-until-expiry computation (the quotient is exact real division in the
source, its ceiling is an integer). -/
def ceilDiv (a b : Int) : Int := -((-a) / b)

def msPerDay : Int := 1000 * 60 * 60 * 24

/-- Argument record of addItem: an InventoryItem minus id, addedAt, isExpired
and daysUntilExpiry (the Omit type of the source). -/
structure InventoryItemData where
  medicineName : String
  genericName : String
  brandNames : List String
  expiryDate : Int
  imageUrl : String
  category : String
  form : String
  disposalInstructions : Option String := none
  environmentalRisk : Option Impact := none
  isAntibiotic : Option Bool := none
  isControlled : Option Bool := none
deriving DecidableEq, Repr

def mkInventoryItem (now : Int) (newId : String) (d : InventoryItemData) : InventoryItem :=
  let daysUntilExpiry := ceilDiv (d.expiryDate - now) msPerDay
  { id := newId, addedAt := now,
    medicineName := d.medicineName, genericName := d.genericName,
    brandNames := d.brandNames, expiryDate := d.expiryDate,
    imageUrl := d.imageUrl, category := d.category, form := d.form,
    isExpired := decide (daysUntilExpiry < 0),
    daysUntilExpiry := daysUntilExpiry,
    disposalInstructions := d.disposalInstructions,
    environmentalRisk := d.environmentalRisk,
    isAntibiotic := d.isAntibiotic, isControlled := d.isControlled }

/-- addItem appends the new item; the expiry notification branch only touches
lastNotificationCheck (checkExpiry ends by setting it). -/
def addItem (now : Int) (newId : String) (d : InventoryItemData)
    (s : InventoryState) : InventoryState :=
  let newItem := mkInventoryItem now newId d
  let s1 := { s with items := s.items ++ [newItem] }
  if newItem.isExpired && s1.notificationsEnabled then
    { s1 with lastNotificationCheck := some now }
  else s1

/-- Partial InventoryItem update record (Partial of the source). -/
structure InventoryItemPatch where
  id : Option String := none
  medicineName : Option String := none
  genericName : Option String := none
  brandNames : Option (List String) := none
  expiryDate : Option Int := none
  imageUrl : Option String := none
  addedAt : Option Int := none
  category : Option String := none
  form : Option String := none
  isExpired : Option Bool := none
  daysUntilExpiry : Option Int := none
  disposalInstructions : Option (Option String) := none
  environmentalRisk : Option (Option Impact) := none
  isAntibiotic : Option (Option Bool) := none
  isControlled : Option (Option Bool) := none
deriving DecidableEq, Repr

/-- Spread merge of an item with a patch (the object spread of the source). -/
def applyPatch (item : InventoryItem) (p : InventoryItemPatch) : InventoryItem :=
  { id := p.id.getD item.id,
    medicineName := p.medicineName.getD item.medicineName,
    genericName := p.genericName.getD item.genericName,
    brandNames := p.brandNames.getD item.brandNames,
    expiryDate := p.expiryDate.getD item.expiryDate,
    imageUrl := p.imageUrl.getD item.imageUrl,
    addedAt := p.addedAt.getD item.addedAt,
    category := p.category.getD item.category,
    form := p.form.getD item.form,
    isExpired := p.isExpired.getD item.isExpired,
    daysUntilExpiry := p.daysUntilExpiry.getD item.daysUntilExpiry,
    disposalInstructions := p.disposalInstructions.getD item.disposalInstructions,
    environmentalRisk := p.environmentalRisk.getD item.environmentalRisk,
    isAntibiotic := p.isAntibiotic.getD item.isAntibiotic,
    isControlled := p.isControlled.getD item.isControlled }

/-- updateItem merges the patch into the matching item and then recomputes
isExpired and daysUntilExpiry from the merged expiryDate. -/
def updateItem (now : Int) (id : String) (updates : InventoryItemPatch)
    (s : InventoryState) : InventoryState :=
  { s with items := s.items.map (fun item =>
      if item.id = id then
        let updated := applyPatch item updates
        let daysUntilExpiry := ceilDiv (updated.expiryDate - now) msPerDay
        { updated with isExpired := decide (daysUntilExpiry < 0),
                       daysUntilExpiry := daysUntilExpiry }
      else item) }

/-! ## services/openai.ts: calculatePointsForDisposal

The LLM reply is JSON-parsed and the points field is read off with
result.points || result.point || 0 and coerced with Number. JSON values are
modelled by JsonVal (numbers as Int); Number coercion returns Option Int
where none models NaN, and NaN propagates through Math.min and Math.max. -/

inductive JsonVal
  | jnum (n : Int)
  | jstr (s : String)
  | jbool (b : Bool)
  | jnull
deriving DecidableEq, Repr

/-- JavaScript truthiness of a JSON value. -/
def JsonVal.truthy : JsonVal → Bool
  | .jnum n => decide (n ≠ 0)
  | .jstr s => decide (s ≠ "")
  | .jbool b => b
  | .jnull => false

/-- Truthiness of a possibly-absent object field (undefined is falsy). -/
def truthyOpt : Option JsonVal → Bool
  | none => false
  | some v => v.truthy

def digitsToNatAux (acc : Nat) : List Char → Option Nat
  | [] => some acc
  | c :: rest =>
    if c.isDigit then digitsToNatAux (acc * 10 + (c.toNat - 48)) rest
    else none

/-- JavaScript Number coercion of a string, restricted to the integer
numerals that the Int model of JSON numbers can produce: the trimmed empty
string is 0, an optionally signed digit string is its value, and anything
else is NaN (none). -/
def jsStringToNumber (s : String) : Option Int :=
  match trimList s.data with
  | [] => some 0
  | c :: rest =>
    if c = Char.ofNat 45 then
      match rest with
      | [] => none
      | _ => (digitsToNatAux 0 rest).map (fun n => -(n : Int))
    else (digitsToNatAux 0 (c :: rest)).map (fun n => (n : Int))

/-- JavaScript Number coercion of a JSON value; none models NaN. -/
def toNumber : JsonVal → Option Int
  | .jnum n => some n
  | .jstr s => jsStringToNumber s
  | .jbool b => some (if b then 1 else 0)
  | .jnull => some 0

/-- Shape of the parsed LLM reply for point calculation: the points and
point fields may each be absent. -/
structure PointsResult where
  points : Option JsonVal := none
  point : Option JsonVal := none
deriving DecidableEq, Repr

/-- calculatePointsForDisposal. The llmResponse parameter is the parsed LLM
reply; none models a failed call or a JSON.parse exception, which the catch
block answers with the deterministic fallback table. On the success path the
extracted value is clamped with Math.max(0, Math.min(100, Number(points))),
and a NaN (none) propagates to the result. -/
def calculatePointsForDisposal (llmResponse : Option PointsResult)
    (action : ActionTaken) (environmentalRisk : Impact)
    (isAntibiotic isControlled : Bool) : Option Int :=
  match llmResponse with
  | some result =>
    let pointsVal : JsonVal :=
      if truthyOpt result.points then result.points.getD .jnull
      else if truthyOpt result.point then result.point.getD .jnull
      else .jnum 0
    match toNumber pointsVal with
    | some n => some (max 0 (min 100 n))
    | none => none
  | none =>
    if action = ActionTaken.skipped then some 0
    else if action = ActionTaken.takeBack then
      if environmentalRisk = Impact.critical ∧ isAntibiotic = true then some 100
      else if environmentalRisk = Impact.critical then some 90
      else if environmentalRisk = Impact.high then some 70
      else if environmentalRisk = Impact.medium then some 50
      else some 30
    else if action = ActionTaken.sealedDisposal then
      if environmentalRisk = Impact.critical then some 40
      else if environmentalRisk = Impact.high then some 30
      else some 20
    else some 10

/-! ## services/openai.ts: selectFishForImpact -/

inductive FishType
  | mackerel
  | sardine
  | anchovy
  | guppy
  | tetra
  | goldfish
  | clownfish
  | angelfish
  | betta
  | salmon
  | tuna
  | shark
  | whale
deriving DecidableEq, Repr

def allFishTypes : List FishType :=
  [.mackerel, .sardine, .anchovy, .guppy, .tetra, .goldfish, .clownfish,
   .angelfish, .betta, .salmon, .tuna, .shark, .whale]

/-- Membership test against the validFishTypes list of the source, returning
the parsed fish type on success. -/
def FishType.ofString : String → Option FishType
  | "mackerel" => some .mackerel
  | "sardine" => some .sardine
  | "anchovy" => some .anchovy
  | "guppy" => some .guppy
  | "tetra" => some .tetra
  | "goldfish" => some .goldfish
  | "clownfish" => some .clownfish
  | "angelfish" => some .angelfish
  | "betta" => some .betta
  | "salmon" => some .salmon
  | "tuna" => some .tuna
  | "shark" => some .shark
  | "whale" => some .whale
  | _ => none

/-- Normalization applied to the raw LLM reply:
response.trim().toLowerCase().replace removing single and double quotes. -/
def normalizeFishResponse (response : String) : String :=
  String.mk (((trimList response.data).map Char.toLower).filter
    (fun c => !(c = Char.ofNat 34 || c = Char.ofNat 39)))

/-- Fallback fish selection by risk level and antibiotic flag; identical in
the invalid-reply branch and in the catch block of the source. -/
def fallbackFishForImpact (environmentalRisk : Impact) (isAntibiotic : Bool) : FishType :=
  if environmentalRisk = Impact.critical ∧ isAntibiotic = true then .whale
  else if environmentalRisk = Impact.critical then .shark
  else if environmentalRisk = Impact.high ∧ isAntibiotic = true then .tuna
  else if environmentalRisk = Impact.high then .salmon
  else if environmentalRisk = Impact.medium then .goldfish
  else .mackerel

/-- selectFishForImpact: llmResponse is the raw string reply of the LLM;
none models a failed call, answered by the catch block. isControlled is
part of the signature but only feeds the prompt. -/
def selectFishForImpact (llmResponse : Option String)
    (environmentalRisk : Impact) (isAntibiotic isControlled : Bool) : FishType :=
  match llmResponse with
  | some response =>
    match FishType.ofString (normalizeFishResponse response) with
    | some ft => ft
    | none => fallbackFishForImpact environmentalRisk isAntibiotic
  | none => fallbackFishForImpact environmentalRisk isAntibiotic

/-! ## services/ocr.ts -/

/-- One pass of String.prototype.replace with pattern backslash-s-plus and a
single space replacement: every maximal whitespace run becomes one space.
The Boolean argument records whether the previous character was whitespace. -/
def collapseWsAux (prevWs : Bool) : List Char → List Char
  | [] => []
  | c :: rest =>
    if c.isWhitespace then
      if prevWs then collapseWsAux true rest
      else Char.ofNat 32 :: collapseWsAux true rest
    else c :: collapseWsAux false rest

/-- JavaScript String.prototype.split with separator newline. -/
def splitLines : List Char → List (List Char)
  | [] => [[]]
  | c :: rest =>
    let r := splitLines rest
    if c = Char.ofNat 10 then [] :: r
    else (c :: r.headD []) :: r.tail

/-- Text cleanup of extractTextFromImage: split at newlines, trim each line,
drop empty lines, join with single spaces, collapse whitespace runs, trim. -/
def cleanOcrText (raw : String) : String :=
  let lines := (splitLines raw.data).map trimList
  let joined := List.intercalate [Char.ofNat 32] (lines.filter (fun l => 0 < l.length))
  String.mk (trimList (collapseWsAux false joined))

structure OcrData where
  text : String
  confidence : Int
deriving DecidableEq, Repr

/-- extractTextFromImage: ocrResult is the recognition outcome, where none
models any internal failure (image decoding, worker setup, recognition),
which the catch block converts into the fixed failure record. -/
def extractTextFromImage (ocrResult : Option OcrData) : OcrData :=
  match ocrResult with
  | none => { text := "Text extraction failed", confidence := 0 }
  | some data =>
    let cleanedText := cleanOcrText data.text
    { text := if cleanedText = "" then "No text detected" else cleanedText,
      confidence := min 100 (max 0 data.confidence) }

/-! ## components/ActionConfirmation.tsx: handleConfirm -/

/-- Action quality determined by handleConfirm from the selected action and
the recommended method string. -/
def determineQuality (selectedAction : ActionTaken) (recommendedMethod : String) : ActionQuality :=
  match selectedAction with
  | .takeBack =>
    if jsIncludes (jsToLower recommendedMethod) "hospital"
        || jsIncludes (jsToLower recommendedMethod) "take-back" then .great
    else .okay
  | .sealedDisposal =>
    if jsIncludes (jsToLower recommendedMethod) "household"
        || jsIncludes (jsToLower recommendedMethod) "disposal" then .great
    else .okay
  | .other => .risky
  | .skipped => .risky

/-- Points computed by handleConfirm and handed to updateScanAction: the LLM
calculator runs only for a non-skipped action with a known environmental
impact; otherwise the local points variable keeps its initial value 0. -/
def handleConfirmPoints (selectedAction : ActionTaken)
    (environmentalImpact : Option Impact) (isAntibiotic isControlled : Bool)
    (recommendedMethod : String) (llmResponse : Option PointsResult) : Option Int :=
  match selectedAction, environmentalImpact with
  | .skipped, _ => some 0
  | _, none => some 0
  | a, some impact =>
    calculatePointsForDisposal llmResponse a impact isAntibiotic isControlled

/-! ## pages/Scan.tsx: the scan wizard step machine

The page keeps a step value in {scan, report, confirm, multiple} plus the
currently detected medicine and the id of the freshly added scan record.
Each handler is modelled as an event; an event is enabled exactly when the
component owning the handler is rendered (the JSX guards of the source).
Transitions that call navigate unmount the page and are therefore absent
from the step function (result none). -/

/-- Medicine of data/medicineDatabase.ts, flattened: primaryMethod and
primarySafetyRating are disposalMethods.primary.method and .safetyRating,
controlled and antibiotic are the hazardFlags, environmentalRiskLevel is
environmentalRisk.level. -/
structure Medicine where
  id : String
  brandNames : List String
  genericName : String
  category : String
  form : String
  controlled : Bool
  antibiotic : Bool
  cytotoxic : Bool := false
  hormonal : Bool := false
  flushable : Bool := false
  primaryMethod : String
  primarySafetyRating : String
  environmentalRiskLevel : Impact
deriving DecidableEq, Repr

structure DetectedMedicine where
  medicine : Medicine
  confidence : Int
  detectedText : String
  imageUrl : String
deriving DecidableEq, Repr

inductive ScanStep
  | scan
  | report
  | confirm
  | multiple
deriving DecidableEq, Repr

structure ScanPageState where
  step : ScanStep
  currentMedicine : Option Medicine
  confidence : Int
  detectedText : String
  currentScanId : Option String
  imageUrl : Option String
  expectedFishType : Option String
  multipleMedicines : List DetectedMedicine
  game : GameState
deriving DecidableEq, Repr

def initialScanPageState (g : GameState) : ScanPageState :=
  { step := .scan, currentMedicine := none, confidence := 0,
    detectedText := "", currentScanId := none, imageUrl := none,
    expectedFishType := none, multipleMedicines := [], game := g }

/-- Events of the Scan page. confirmAction carries the fish type forwarded
by DisposalReport together with the id and timestamp generated inside
addScan. completeAction fires when ActionConfirmation calls onComplete. -/
inductive ScanEvent
  | detection (medicine : Medicine) (conf : Int) (text : String) (imgUrl : Option String)
  | multipleDetections (medicines : List DetectedMedicine)
  | medicineSelect (medicine : Medicine) (conf : Int) (text : String) (imgUrl : String)
  | confirmAction (fishType : Option String) (newScanId : String) (now : Int)
  | completeAction
  | back
deriving DecidableEq, Repr

def ScanEvent.isConfirmAction : ScanEvent → Bool
  | .confirmAction _ _ _ => true
  | _ => false

/-- Step function of the Scan page. The result is none when the event is
not enabled in the given state (its component is not rendered) or when the
handler navigates away from the page. The store update that
ActionConfirmation performs before onComplete is modelled separately by
updateScanAction and does not change the page-local state. -/
def scanPageStep (s : ScanPageState) (e : ScanEvent) : Option ScanPageState :=
  match e with
  | .detection m conf text imgUrl =>
    if s.step = ScanStep.scan then
      some { s with currentMedicine := some m, confidence := conf,
                    detectedText := text, imageUrl := imgUrl, step := .report }
    else none
  | .multipleDetections meds =>
    if s.step = ScanStep.scan then
      some { s with multipleMedicines := meds, step := .multiple }
    else none
  | .medicineSelect m conf text imgUrl =>
    if s.step = ScanStep.multiple ∧ s.multipleMedicines ≠ [] then
      some { s with currentMedicine := some m, confidence := conf,
                    detectedText := text, imageUrl := some imgUrl, step := .report }
    else none
  | .confirmAction fishType newScanId now =>
    if s.step = ScanStep.report then
      match s.currentMedicine with
      | some m =>
        let withFish := match fishType with
          | some ft => { s with expectedFishType := some ft }
          | none => s
        let game1 := addScan newScanId now
          { medicineId := m.id, medicineName := m.brandNames.headD "",
            detectedText := s.detectedText, confidence := s.confidence,
            disposalMethod := m.primaryMethod,
            safetyRating := m.primarySafetyRating,
            pointsEarned := 0, imageUrl := s.imageUrl } withFish.game
        let latestScanId := (game1.scanHistory.head?).map ScanRecord.id
        some { withFish with game := game1, currentScanId := latestScanId,
                             step := .confirm }
      | none => none
    else none
  | .completeAction =>
    if s.step = ScanStep.confirm ∧ s.currentScanId ≠ none ∧ s.currentMedicine ≠ none then
      match s.currentMedicine with
      | some m =>
        if s.multipleMedicines ≠ [] then
          let updatedMedicines :=
            s.multipleMedicines.filter (fun d => !decide (d.medicine.id = m.id))
          if updatedMedicines ≠ [] then
            some { s with multipleMedicines := updatedMedicines,
                          currentMedicine := none, currentScanId := none,
                          step := .multiple }
          else none
        else none
      | none => none
    else none
  | .back =>
    match s.step with
    | .report =>
      if s.multipleMedicines ≠ [] then
        some { s with step := .multiple, currentMedicine := none }
      else
        some { s with step := .scan, currentMedicine := none }
    | .confirm => some { s with step := .report }
    | .multiple => some { s with step := .scan, multipleMedicines := [] }
    | .scan => none

/-! ## Concrete states used by witnesses and counterexamples -/

def sampleScanData : ScanData :=
  { medicineId := "m1", medicineName := "Panadol", detectedText := "panadol",
    confidence := 90, disposalMethod := "Hospital Take-Back", safetyRating := "A",
    pointsEarned := 0 }

def sampleState0 : GameState := addScan "scan-1" 0 sampleScanData initialGameState

def sampleState1 : GameState :=
  updateScanAction "scan-1" (some ActionTaken.takeBack) (some ActionQuality.great)
    (some Impact.low) none (some 50) none "Tue Jan 02 2024" "Mon Jan 01 2024" 1
    "f1" "Bubbles" "f2" "Finn" sampleState0

def sampleState2 : GameState :=
  updateScanAction "scan-1" (some ActionTaken.takeBack) (some ActionQuality.great)
    (some Impact.low) none none none "Tue Jan 02 2024" "Mon Jan 01 2024" 2
    "f3" "Coral" "f4" "Reef" sampleState1

def sampleItemData : InventoryItemData :=
  { medicineName := "Panadol", genericName := "Paracetamol",
    brandNames := ["Panadol"], expiryDate := 1704067200000,
    imageUrl := "http://x/img.png", category := "Pain Relief", form := "tablet" }

/-- Scan record stored in sampleState1 after the first completed action. -/
def sampleFoundRecord : ScanRecord :=
  { id := "scan-1", medicineId := "m1", medicineName := "Panadol",
    detectedText := "panadol", confidence := 90,
    disposalMethod := "Hospital Take-Back", safetyRating := "A",
    actionTaken := some ActionTaken.takeBack, actionQuality := some ActionQuality.great,
    pointsEarned := 50, timestamp := 0, imageUrl := none }

def sampleMedicine : Medicine :=
  { id := "med-1", brandNames := ["Panadol"], genericName := "Paracetamol",
    category := "Pain Relief", form := "tablet", controlled := false,
    antibiotic := false, primaryMethod := "Hospital Take-Back",
    primarySafetyRating := "A", environmentalRiskLevel := Impact.low }

def sampleReportState : ScanPageState :=
  { (initialScanPageState initialGameState) with
    step := ScanStep.report,
    currentMedicine := some sampleMedicine, detectedText := "panadol",
    confidence := 90 }

def sampleConfirmScanData : ScanData :=
  { medicineId := "med-1", medicineName := "Panadol", detectedText := "panadol",
    confidence := 90, disposalMethod := "Hospital Take-Back",
    safetyRating := "A", pointsEarned := 0, imageUrl := none }

/-- Page state reached from sampleReportState by confirming the action. -/
def sampleConfirmState : ScanPageState :=
  { sampleReportState with
    game := addScan "scan-9" 7 sampleConfirmScanData sampleReportState.game,
    currentScanId := some "scan-9", step := ScanStep.confirm }

/-! ## Frame lemmas for the stages of updateScanAction -/

theorem addFish_frame (a b : String) (n : Int) (ty : String)
    (m mn : Option String) (il : Option Impact) (s : GameState) :
    (addFish a b n ty m mn il s).totalPoints = s.totalPoints
    ∧ (addFish a b n ty m mn il s).totalDisposals = s.totalDisposals
    ∧ (addFish a b n ty m mn il s).waterClarity = s.waterClarity
    ∧ (addFish a b n ty m mn il s).scanHistory = s.scanHistory :=
  ⟨rfl, rfl, rfl, rfl⟩

theorem updateStreak_frame (t y : String) (s : GameState) :
    (updateStreak t y s).totalPoints = s.totalPoints
    ∧ (updateStreak t y s).totalDisposals = s.totalDisposals
    ∧ (updateStreak t y s).waterClarity = s.waterClarity
    ∧ (updateStreak t y s).scanHistory = s.scanHistory := by
  unfold updateStreak
  split
  · exact ⟨rfl, rfl, rfl, rfl⟩
  · split <;> exact ⟨rfl, rfl, rfl, rfl⟩

theorem checkAchievements_frame (now : Int) (s : GameState) :
    (checkAchievements now s).totalPoints = s.totalPoints
    ∧ (checkAchievements now s).totalDisposals = s.totalDisposals
    ∧ (checkAchievements now s).waterClarity = s.waterClarity
    ∧ (checkAchievements now s).scanHistory = s.scanHistory :=
  ⟨rfl, rfl, rfl, rfl⟩

theorem expectedFishStage_frame (scanId : String) (action : Option ActionTaken)
    (quality : Option ActionQuality) (impact : Option Impact)
    (eft : Option String) (f1 f2 : String) (now : Int) (s : GameState) :
    (expectedFishStage scanId action quality impact eft f1 f2 now s).totalPoints = s.totalPoints
    ∧ (expectedFishStage scanId action quality impact eft f1 f2 now s).totalDisposals = s.totalDisposals
    ∧ (expectedFishStage scanId action quality impact eft f1 f2 now s).waterClarity = s.waterClarity
    ∧ (expectedFishStage scanId action quality impact eft f1 f2 now s).scanHistory = s.scanHistory := by
  unfold expectedFishStage
  split
  · split <;> exact ⟨rfl, rfl, rfl, rfl⟩
  · exact ⟨rfl, rfl, rfl, rfl⟩

theorem milestoneFishStage_frame (f3 f4 : String) (now : Int) (s : GameState) :
    (milestoneFishStage f3 f4 now s).totalPoints = s.totalPoints
    ∧ (milestoneFishStage f3 f4 now s).totalDisposals = s.totalDisposals
    ∧ (milestoneFishStage f3 f4 now s).waterClarity = s.waterClarity
    ∧ (milestoneFishStage f3 f4 now s).scanHistory = s.scanHistory := by
  unfold milestoneFishStage
  split <;> exact ⟨rfl, rfl, rfl, rfl⟩

theorem fishStage_frame (scanId : String) (action : Option ActionTaken)
    (quality : Option ActionQuality) (impact : Option Impact)
    (eft : Option String) (f1 f2 f3 f4 : String) (now : Int) (s : GameState) :
    (fishStage scanId action quality impact eft f1 f2 f3 f4 now s).totalPoints = s.totalPoints
    ∧ (fishStage scanId action quality impact eft f1 f2 f3 f4 now s).totalDisposals = s.totalDisposals
    ∧ (fishStage scanId action quality impact eft f1 f2 f3 f4 now s).waterClarity = s.waterClarity
    ∧ (fishStage scanId action quality impact eft f1 f2 f3 f4 now s).scanHistory = s.scanHistory := by
  unfold fishStage
  have hm := milestoneFishStage_frame f3 f4 now
    (expectedFishStage scanId action quality impact eft f1 f2 now s)
  have he := expectedFishStage_frame scanId action quality impact eft f1 f2 now s
  exact ⟨hm.1.trans he.1, hm.2.1.trans he.2.1, hm.2.2.1.trans he.2.2.1,
         hm.2.2.2.trans he.2.2.2⟩

theorem updateScanAction_frame (scanId : String) (action : Option ActionTaken)
    (quality : Option ActionQuality) (impact : Option Impact)
    (medName : Option String) (cp : Option Int) (eft : Option String)
    (today yesterday : String) (now : Int) (f1 f2 f3 f4 : String) (s : GameState) :
    (updateScanAction scanId action quality impact medName cp eft today yesterday
        now f1 f2 f3 f4 s).totalPoints
      = (updateScanCore scanId action quality cp s).totalPoints
    ∧ (updateScanAction scanId action quality impact medName cp eft today yesterday
        now f1 f2 f3 f4 s).totalDisposals
      = (updateScanCore scanId action quality cp s).totalDisposals
    ∧ (updateScanAction scanId action quality impact medName cp eft today yesterday
        now f1 f2 f3 f4 s).waterClarity
      = (updateScanCore scanId action quality cp s).waterClarity
    ∧ (updateScanAction scanId action quality impact medName cp eft today yesterday
        now f1 f2 f3 f4 s).scanHistory
      = (updateScanCore scanId action quality cp s).scanHistory := by
  unfold updateScanAction
  have hf := fishStage_frame scanId action quality impact eft f1 f2 f3 f4 now
    (checkAchievements now (updateStreak today yesterday
      (updateScanCore scanId action quality cp s)))
  have hc := checkAchievements_frame now (updateStreak today yesterday
    (updateScanCore scanId action quality cp s))
  have hs := updateStreak_frame today yesterday (updateScanCore scanId action quality cp s)
  refine ⟨?_, ?_, ?_, ?_⟩
  · rw [hf.1, hc.1, hs.1]
  · rw [hf.2.1, hc.2.1, hs.2.1]
  · rw [hf.2.2.1, hc.2.2.1, hs.2.2.1]
  · rw [hf.2.2.2, hc.2.2.2, hs.2.2.2]

/-! ## Claim theorems -/

/-- C2: updateStreak is a consecutive-day counter. It is a no-op when
lastActionDate already equals the date string of today; otherwise it sets
lastActionDate to today, sets currentStreak to currentStreak + 1 exactly when
lastActionDate equals the date string of yesterday and to 1 otherwise, and
sets longestStreak to the maximum of the old longestStreak and the new
currentStreak. -/
theorem C2_updateStreak_consecutive_day_counter (today yesterday : String) (s : GameState) :
    (s.lastActionDate = some today → updateStreak today yesterday s = s)
    ∧ (s.lastActionDate ≠ some today →
        (updateStreak today yesterday s).lastActionDate = some today
        ∧ (s.lastActionDate = some yesterday →
            (updateStreak today yesterday s).currentStreak = s.currentStreak + 1)
        ∧ (s.lastActionDate ≠ some yesterday →
            (updateStreak today yesterday s).currentStreak = 1)
        ∧ (updateStreak today yesterday s).longestStreak
            = max s.longestStreak (updateStreak today yesterday s).currentStreak) := by
  constructor
  · intro h
    unfold updateStreak
    simp [h]
  · intro h
    unfold updateStreak
    rw [if_neg h]
    by_cases hy : s.lastActionDate = some yesterday
    · rw [if_pos hy]
      exact ⟨rfl, fun _ => rfl, fun hne => absurd hy hne, rfl⟩
    · rw [if_neg hy]
      exact ⟨rfl, fun hyy => absurd hyy hy, fun _ => rfl, rfl⟩

/-- Witness for C2 at a concrete consecutive-day state. -/
theorem C2_witness :
    (updateStreak "Tue Jan 02 2024" "Mon Jan 01 2024"
      { initialGameState with lastActionDate := some "Mon Jan 01 2024",
                              currentStreak := 3, longestStreak := 3 }).currentStreak = 3 + 1 :=
  ((C2_updateStreak_consecutive_day_counter "Tue Jan 02 2024" "Mon Jan 01 2024"
      { initialGameState with lastActionDate := some "Mon Jan 01 2024",
                              currentStreak := 3, longestStreak := 3 }).2
    (by decide)).2.1 (by decide)

/-- C4: checkAchievements sets unlockedAt on a not-yet-unlocked achievement
exactly when the counter matching its type reaches its requirement
(totalDisposals for disposals, currentStreak for streak, totalPoints for
points), never touches an achievement whose unlockedAt is already set, and
the default achievements carry the requirements 1, 7, 10, 500, 5, 25. -/
theorem C4_checkAchievements_thresholds (now : Int) (s : GameState) :
    (defaultAchievements.map (fun a => a.requirement) = [1, 7, 10, 500, 5, 25]
      ∧ defaultAchievements.map (fun a => a.type)
          = [AchievementType.disposals, AchievementType.streak, AchievementType.disposals,
             AchievementType.points, AchievementType.disposals, AchievementType.disposals]
      ∧ initialGameState.achievements = defaultAchievements)
    ∧ (∀ a : Achievement, shouldUnlock a s ↔
        ((a.type = AchievementType.disposals ∧ a.requirement ≤ s.totalDisposals)
          ∨ (a.type = AchievementType.streak ∧ a.requirement ≤ s.currentStreak)
          ∨ (a.type = AchievementType.points ∧ a.requirement ≤ s.totalPoints)))
    ∧ (checkAchievements now s).achievements.length = s.achievements.length
    ∧ ∀ (i : Nat) (h : i < s.achievements.length)
        (h2 : i < (checkAchievements now s).achievements.length),
        ((s.achievements.get ⟨i, h⟩).unlockedAt.isSome = true →
          (checkAchievements now s).achievements.get ⟨i, h2⟩ = s.achievements.get ⟨i, h⟩)
        ∧ ((s.achievements.get ⟨i, h⟩).unlockedAt = none →
            (((checkAchievements now s).achievements.get ⟨i, h2⟩).unlockedAt = some now
              ↔ shouldUnlock (s.achievements.get ⟨i, h⟩) s)
            ∧ (shouldUnlock (s.achievements.get ⟨i, h⟩) s →
                (checkAchievements now s).achievements.get ⟨i, h2⟩
                  = { (s.achievements.get ⟨i, h⟩) with unlockedAt := some now })
            ∧ (¬shouldUnlock (s.achievements.get ⟨i, h⟩) s →
                (checkAchievements now s).achievements.get ⟨i, h2⟩
                  = s.achievements.get ⟨i, h⟩)) := by
  refine ⟨⟨rfl, rfl, rfl⟩, fun a => Iff.rfl, by simp [checkAchievements], ?_⟩
  intro i h h2
  have hget : (checkAchievements now s).achievements.get ⟨i, h2⟩
      = (if (s.achievements.get ⟨i, h⟩).unlockedAt.isSome = true then
          s.achievements.get ⟨i, h⟩
        else if shouldUnlock (s.achievements.get ⟨i, h⟩) s then
          { (s.achievements.get ⟨i, h⟩) with unlockedAt := some now }
        else s.achievements.get ⟨i, h⟩) := by
    simp [checkAchievements, List.get_eq_getElem, List.getElem_map]
  constructor
  · intro hsome
    rw [hget, if_pos hsome]
  · intro hnone
    have hcond : ¬((s.achievements.get ⟨i, h⟩).unlockedAt.isSome = true) := by
      rw [hnone]; simp
    rw [hget, if_neg hcond]
    by_cases hsu : shouldUnlock (s.achievements.get ⟨i, h⟩) s
    · rw [if_pos hsu]
      exact ⟨⟨fun _ => hsu, fun _ => rfl⟩, fun _ => rfl, fun hns => absurd hsu hns⟩
    · rw [if_neg hsu]
      refine ⟨⟨fun hx => ?_, fun hx => absurd hx hsu⟩, fun hx => absurd hx hsu, fun _ => rfl⟩
      rw [hnone] at hx
      exact Option.noConfusion hx

/-- Witness for C4: with one disposal recorded, the first default achievement
(requirement 1, type disposals) gets unlocked. -/
theorem C4_witness :
    (checkAchievements 99 { initialGameState with totalDisposals := 1 }).achievements.get
        ⟨0, by decide⟩
      = { ({ initialGameState with totalDisposals := 1 } : GameState).achievements.get
            ⟨0, by decide⟩ with unlockedAt := some 99 } :=
  (((C4_checkAchievements_thresholds 99
      { initialGameState with totalDisposals := 1 }).2.2.2 0 (by decide) (by decide)).2
    (by decide)).2.1 (by decide)

/-- Helper: the clarity bonus of a quality value is 0, 2 or 5. -/
theorem clarityBonus_cases (quality : Option ActionQuality) :
    clarityBonus quality = 0 ∨ clarityBonus quality = 2 ∨ clarityBonus quality = 5 := by
  cases quality with
  | none => exact Or.inl rfl
  | some q =>
    cases q with
    | great => exact Or.inr (Or.inr rfl)
    | okay => exact Or.inr (Or.inl rfl)
    | risky => exact Or.inl rfl

/-- C9: waterClarity starts at 50 and after every updateScanAction call it
remains at most 100 and never decreases; the call adds 5 for a great action
quality, 2 for okay and 0 otherwise, clamped at 100. The hypothesis is the
reachability invariant that the clarity is at most 100 before the call,
which holds at the initial state and is preserved by every call. -/
theorem C9_water_clarity (scanId : String) (action : Option ActionTaken)
    (quality : Option ActionQuality) (impact : Option Impact)
    (medName : Option String) (cp : Option Int) (eft : Option String)
    (today yesterday : String) (now : Int) (f1 f2 f3 f4 : String)
    (s : GameState) (hs : s.waterClarity ≤ 100) :
    initialGameState.waterClarity = 50
    ∧ (updateScanAction scanId action quality impact medName cp eft today yesterday
        now f1 f2 f3 f4 s).waterClarity
      = min 100 (s.waterClarity + clarityBonus quality)
    ∧ clarityBonus (some ActionQuality.great) = 5
    ∧ clarityBonus (some ActionQuality.okay) = 2
    ∧ clarityBonus (some ActionQuality.risky) = 0
    ∧ clarityBonus none = 0
    ∧ s.waterClarity ≤ (updateScanAction scanId action quality impact medName cp eft
        today yesterday now f1 f2 f3 f4 s).waterClarity
    ∧ (updateScanAction scanId action quality impact medName cp eft today yesterday
        now f1 f2 f3 f4 s).waterClarity ≤ 100 := by
  have hw : (updateScanAction scanId action quality impact medName cp eft today yesterday
      now f1 f2 f3 f4 s).waterClarity
      = min 100 (s.waterClarity + clarityBonus quality) := by
    rw [(updateScanAction_frame scanId action quality impact medName cp eft today
      yesterday now f1 f2 f3 f4 s).2.2.1]
    rfl
  have hb := clarityBonus_cases quality
  refine ⟨rfl, hw, rfl, rfl, rfl, rfl, ?_, ?_⟩
  · rw [hw]; rcases hb with h | h | h <;> rw [h] <;> omega
  · rw [hw]; omega

/-- Witness for C9 at the initial state with a great-quality action. -/
theorem C9_witness :
    (updateScanAction "scan-1" (some ActionTaken.takeBack) (some ActionQuality.great)
        none none none none "Tue Jan 02 2024" "Mon Jan 01 2024" 0 "f1" "Bubbles"
        "f2" "Finn" initialGameState).waterClarity
      = min 100 (initialGameState.waterClarity + clarityBonus (some ActionQuality.great)) :=
  (C9_water_clarity "scan-1" (some ActionTaken.takeBack) (some ActionQuality.great)
    none none none none "Tue Jan 02 2024" "Mon Jan 01 2024" 0 "f1" "Bubbles"
    "f2" "Finn" initialGameState (by decide)).2.1

/-- Helper: the history update of updateScanCore is a pointwise map that
rewrites only the records whose id matches, for one common points value. -/
theorem updateScanCore_scanHistory_map (scanId : String) (action : Option ActionTaken)
    (quality : Option ActionQuality) (cp : Option Int) (s : GameState) :
    ∃ pts : Int, (updateScanCore scanId action quality cp s).scanHistory
      = s.scanHistory.map (fun sc =>
          if sc.id = scanId then
            { sc with actionTaken := action, actionQuality := quality, pointsEarned := pts }
          else sc) :=
  ⟨_, rfl⟩

/-- C10: addScan prepends the new record at the head of scanHistory and
leaves every existing record unchanged, so the head is the record just
added (which the Scan page reads for its id); updateScanAction preserves
the length and order of scanHistory and modifies only the actionTaken,
actionQuality and pointsEarned fields of records whose id matches. -/
theorem C10_scan_history_frame :
    (∀ (newId : String) (now : Int) (d : ScanData) (s : GameState),
        (addScan newId now d s).scanHistory = mkScanRecord newId now d :: s.scanHistory)
    ∧ ∀ (scanId : String) (action : Option ActionTaken) (quality : Option ActionQuality)
        (impact : Option Impact) (medName : Option String) (cp : Option Int)
        (eft : Option String) (today yesterday : String) (now : Int)
        (f1 f2 f3 f4 : String) (s : GameState),
        (updateScanAction scanId action quality impact medName cp eft today yesterday
            now f1 f2 f3 f4 s).scanHistory.length = s.scanHistory.length
        ∧ ∀ (i : Nat) (h : i < s.scanHistory.length)
            (h2 : i < (updateScanAction scanId action quality impact medName cp eft
                today yesterday now f1 f2 f3 f4 s).scanHistory.length),
            (((updateScanAction scanId action quality impact medName cp eft today
                yesterday now f1 f2 f3 f4 s).scanHistory.get ⟨i, h2⟩).id
                = (s.scanHistory.get ⟨i, h⟩).id
              ∧ ((updateScanAction scanId action quality impact medName cp eft today
                  yesterday now f1 f2 f3 f4 s).scanHistory.get ⟨i, h2⟩).medicineId
                = (s.scanHistory.get ⟨i, h⟩).medicineId
              ∧ ((updateScanAction scanId action quality impact medName cp eft today
                  yesterday now f1 f2 f3 f4 s).scanHistory.get ⟨i, h2⟩).medicineName
                = (s.scanHistory.get ⟨i, h⟩).medicineName
              ∧ ((updateScanAction scanId action quality impact medName cp eft today
                  yesterday now f1 f2 f3 f4 s).scanHistory.get ⟨i, h2⟩).detectedText
                = (s.scanHistory.get ⟨i, h⟩).detectedText
              ∧ ((updateScanAction scanId action quality impact medName cp eft today
                  yesterday now f1 f2 f3 f4 s).scanHistory.get ⟨i, h2⟩).confidence
                = (s.scanHistory.get ⟨i, h⟩).confidence
              ∧ ((updateScanAction scanId action quality impact medName cp eft today
                  yesterday now f1 f2 f3 f4 s).scanHistory.get ⟨i, h2⟩).disposalMethod
                = (s.scanHistory.get ⟨i, h⟩).disposalMethod
              ∧ ((updateScanAction scanId action quality impact medName cp eft today
                  yesterday now f1 f2 f3 f4 s).scanHistory.get ⟨i, h2⟩).safetyRating
                = (s.scanHistory.get ⟨i, h⟩).safetyRating
              ∧ ((updateScanAction scanId action quality impact medName cp eft today
                  yesterday now f1 f2 f3 f4 s).scanHistory.get ⟨i, h2⟩).timestamp
                = (s.scanHistory.get ⟨i, h⟩).timestamp
              ∧ ((updateScanAction scanId action quality impact medName cp eft today
                  yesterday now f1 f2 f3 f4 s).scanHistory.get ⟨i, h2⟩).imageUrl
                = (s.scanHistory.get ⟨i, h⟩).imageUrl)
            ∧ ((s.scanHistory.get ⟨i, h⟩).id ≠ scanId →
                (updateScanAction scanId action quality impact medName cp eft today
                  yesterday now f1 f2 f3 f4 s).scanHistory.get ⟨i, h2⟩
                  = s.scanHistory.get ⟨i, h⟩)
            ∧ ((s.scanHistory.get ⟨i, h⟩).id = scanId →
                ((updateScanAction scanId action quality impact medName cp eft today
                  yesterday now f1 f2 f3 f4 s).scanHistory.get ⟨i, h2⟩).actionTaken = action
                ∧ ((updateScanAction scanId action quality impact medName cp eft today
                  yesterday now f1 f2 f3 f4 s).scanHistory.get ⟨i, h2⟩).actionQuality
                  = quality) := by
  constructor
  · intro newId now d s
    rfl
  · intro scanId action quality impact medName cp eft today yesterday now f1 f2 f3 f4 s
    obtain ⟨pts, hmap⟩ := updateScanCore_scanHistory_map scanId action quality cp s
    have hhist : (updateScanAction scanId action quality impact medName cp eft today
        yesterday now f1 f2 f3 f4 s).scanHistory
        = s.scanHistory.map (fun sc =>
            if sc.id = scanId then
              { sc with actionTaken := action, actionQuality := quality,
                        pointsEarned := pts }
            else sc) := by
      rw [(updateScanAction_frame scanId action quality impact medName cp eft today
        yesterday now f1 f2 f3 f4 s).2.2.2, hmap]
    constructor
    · rw [hhist]
      exact List.length_map _ _
    · intro i h h2
      have hget : (updateScanAction scanId action quality impact medName cp eft today
          yesterday now f1 f2 f3 f4 s).scanHistory.get ⟨i, h2⟩
          = (if (s.scanHistory.get ⟨i, h⟩).id = scanId then
              { (s.scanHistory.get ⟨i, h⟩) with actionTaken := action, actionQuality := quality, pointsEarned := pts }
            else s.scanHistory.get ⟨i, h⟩) := by
        simp only [List.get_eq_getElem, hhist, List.getElem_map]
      by_cases hid : (s.scanHistory.get ⟨i, h⟩).id = scanId
      · rw [hget, if_pos hid]
        exact ⟨⟨rfl, rfl, rfl, rfl, rfl, rfl, rfl, rfl, rfl⟩,
               fun hne => absurd hid hne, fun _ => ⟨rfl, rfl⟩⟩
      · rw [hget, if_neg hid]
        exact ⟨⟨rfl, rfl, rfl, rfl, rfl, rfl, rfl, rfl, rfl⟩,
               fun _ => rfl, fun heq => absurd heq hid⟩

/-- Witness for C10: the head of the history is the record just added, and
the update of a matching record rewrites its actionTaken field. -/
theorem C10_witness :
    sampleState0.scanHistory = mkScanRecord "scan-1" 0 sampleScanData :: initialGameState.scanHistory
    ∧ ((updateScanAction "scan-1" (some ActionTaken.takeBack) (some ActionQuality.great)
        (some Impact.low) none (some 50) none "Tue Jan 02 2024" "Mon Jan 01 2024" 1
        "f1" "Bubbles" "f2" "Finn" sampleState0).scanHistory.get ⟨0, by decide⟩).actionTaken
      = some ActionTaken.takeBack :=
  ⟨C10_scan_history_frame.1 "scan-1" 0 sampleScanData initialGameState,
   (((C10_scan_history_frame.2 "scan-1" (some ActionTaken.takeBack)
        (some ActionQuality.great) (some Impact.low) none (some 50) none
        "Tue Jan 02 2024" "Mon Jan 01 2024" 1 "f1" "Bubbles" "f2" "Finn"
        sampleState0).2 0 (by decide) (by decide)).2.2 (by decide)).1⟩

/-! ## C1: double counting in updateScanAction -/

/-- Counterexample for C1 as stated: starting from a history holding the
scan record scan-1, a first updateScanAction call with action take-back and
calculated points 50 yields 50 total points and 1 disposal; a second call
with the same scanId and the same non-skipped action raises the totals to
100 points and 2 disposals, so the second call does increase totalPoints
and totalDisposals beyond the effect of the first call. -/
theorem C1_counterexample :
    sampleState1.totalPoints = 50 ∧ sampleState1.totalDisposals = 1
    ∧ sampleState2.totalPoints = 100 ∧ sampleState2.totalDisposals = 2 := by
  decide

/-- C1 amended: updateScanAction does not protect against double counting.
Every call with a non-skipped action increments totalDisposals by exactly
one, and adds to totalPoints the calculated points when they are positive,
and otherwise the stored pointsEarned of the record found for the scanId;
hence a repeated call for an already-counted scan increases both totals
again. -/
theorem C1_no_double_count_guard (scanId : String) (action : Option ActionTaken)
    (quality : Option ActionQuality) (impact : Option Impact)
    (medName : Option String) (cp : Option Int) (eft : Option String)
    (today yesterday : String) (now : Int) (f1 f2 f3 f4 : String)
    (s : GameState) (ha : action ≠ some ActionTaken.skipped) :
    (updateScanAction scanId action quality impact medName cp eft today yesterday
        now f1 f2 f3 f4 s).totalDisposals = s.totalDisposals + 1
    ∧ (∀ p : Int, cp = some p → 0 < p →
        (updateScanAction scanId action quality impact medName cp eft today yesterday
          now f1 f2 f3 f4 s).totalPoints = s.totalPoints + p)
    ∧ (∀ sc : ScanRecord, cp = none →
        s.scanHistory.find? (fun r => decide (r.id = scanId)) = some sc →
        (updateScanAction scanId action quality impact medName cp eft today yesterday
          now f1 f2 f3 f4 s).totalPoints = s.totalPoints + sc.pointsEarned) := by
  have hframe := updateScanAction_frame scanId action quality impact medName cp eft
    today yesterday now f1 f2 f3 f4 s
  refine ⟨?_, ?_, ?_⟩
  · rw [hframe.2.1]
    simp [updateScanCore, ha]
  · intro p hp hpos
    subst hp
    rw [hframe.1]
    simp [updateScanCore, hpos]
  · intro sc hcp hfind
    subst hcp
    rw [hframe.1]
    simp [updateScanCore, hfind]

/-- Witness for the amended C1: the second call on sampleState1 counts the
same scan again. -/
theorem C1_witness :
    sampleState2.totalDisposals = sampleState1.totalDisposals + 1
    ∧ sampleState2.totalPoints = sampleState1.totalPoints + 50 := by
  have h := C1_no_double_count_guard "scan-1" (some ActionTaken.takeBack)
    (some ActionQuality.great) (some Impact.low) none none none
    "Tue Jan 02 2024" "Mon Jan 01 2024" 2 "f3" "Coral" "f4" "Reef"
    sampleState1 (by decide)
  exact ⟨h.1, h.2.2 sampleFoundRecord rfl (by decide)⟩

/-- C3: every item produced by addItem, and the matching item after
updateItem, has daysUntilExpiry equal to the ceiling of the difference
between expiryDate and the current time divided by 86400000 ms, and
isExpired holds exactly when daysUntilExpiry is negative; in particular an
item whose expiry timestamp has passed within the current 24-hour window
(an item expiring today) has daysUntilExpiry 0 and is not expired. The
second conjunct characterizes ceilDiv as the real ceiling of the
division. -/
theorem C3_days_until_expiry (now : Int) (newId : String) (d : InventoryItemData)
    (s : InventoryState) :
    ((mkInventoryItem now newId d).daysUntilExpiry = ceilDiv (d.expiryDate - now) msPerDay
      ∧ ((mkInventoryItem now newId d).isExpired = true
          ↔ (mkInventoryItem now newId d).daysUntilExpiry < 0)
      ∧ (addItem now newId d s).items = s.items ++ [mkInventoryItem now newId d])
    ∧ (∀ a : Int, a ≤ ceilDiv a msPerDay * msPerDay
        ∧ ceilDiv a msPerDay * msPerDay < a + msPerDay)
    ∧ (d.expiryDate ≤ now → now < d.expiryDate + msPerDay →
        (mkInventoryItem now newId d).daysUntilExpiry = 0
        ∧ (mkInventoryItem now newId d).isExpired = false)
    ∧ ∀ (id : String) (p : InventoryItemPatch) (i : Nat)
        (h : i < s.items.length) (h2 : i < (updateItem now id p s).items.length),
        (s.items.get ⟨i, h⟩).id = id →
        ((updateItem now id p s).items.get ⟨i, h2⟩).expiryDate
            = (applyPatch (s.items.get ⟨i, h⟩) p).expiryDate
        ∧ ((updateItem now id p s).items.get ⟨i, h2⟩).daysUntilExpiry
            = ceilDiv (((updateItem now id p s).items.get ⟨i, h2⟩).expiryDate - now) msPerDay
        ∧ (((updateItem now id p s).items.get ⟨i, h2⟩).isExpired = true
            ↔ ((updateItem now id p s).items.get ⟨i, h2⟩).daysUntilExpiry < 0) := by
  refine ⟨⟨rfl, ?_, ?_⟩, ?_, ?_, ?_⟩
  · simp [mkInventoryItem]
  · simp only [addItem]
    split <;> rfl
  · intro a
    unfold ceilDiv msPerDay
    constructor <;> omega
  · intro h1 h2
    have hz : ceilDiv (d.expiryDate - now) msPerDay = 0 := by
      unfold msPerDay at h2
      unfold ceilDiv msPerDay
      omega
    exact ⟨hz, by simp [mkInventoryItem, hz]⟩
  · intro id p i h h2 hmatch
    have hget : (updateItem now id p s).items.get ⟨i, h2⟩
        = (if (s.items.get ⟨i, h⟩).id = id then
            { (applyPatch (s.items.get ⟨i, h⟩) p) with isExpired := decide (ceilDiv ((applyPatch (s.items.get ⟨i, h⟩) p).expiryDate - now) msPerDay < 0), daysUntilExpiry := ceilDiv ((applyPatch (s.items.get ⟨i, h⟩) p).expiryDate - now) msPerDay }
          else s.items.get ⟨i, h⟩) := by
      simp only [updateItem, List.get_eq_getElem, List.getElem_map]
    rw [hget, if_pos hmatch]
    exact ⟨rfl, rfl, by simp⟩

/-- Witness for C3: an item whose expiry timestamp passed one hour ago has
daysUntilExpiry 0 and is not expired. -/
theorem C3_witness :
    (mkInventoryItem 1704070800000 "item-1" sampleItemData).daysUntilExpiry = 0
    ∧ (mkInventoryItem 1704070800000 "item-1" sampleItemData).isExpired = false :=
  (C3_days_until_expiry 1704070800000 "item-1" sampleItemData
      initialInventoryState).2.2.1 (by decide) (by decide)

/-! ## C5: point calculation -/

/-- Counterexample for C5 as stated: when the parsed LLM reply carries a
non-numeric points field, Number coercion yields NaN, and NaN passes through
Math.min and Math.max unchanged, so calculatePointsForDisposal resolves to
NaN (modelled none) rather than a number between 0 and 100. -/
theorem C5_counterexample :
    calculatePointsForDisposal
        (some { points := some (JsonVal.jstr "high"), point := none })
        ActionTaken.takeBack Impact.critical true false = none := by
  decide

/-- C5 amended: calculatePointsForDisposal resolves to a number between 0
and 100 inclusive for every LLM response whose extracted points value is
numeric (a non-numeric value yields NaN instead); when the LLM call or the
JSON parse fails it returns the deterministic fallback of the source, and
the ActionConfirmation flow never invokes the calculator for a skipped
action, recording 0 points instead. -/
theorem C5_points_bounded_and_fallback (resp : PointsResult) (action : ActionTaken)
    (risk : Impact) (ab ctl : Bool) :
    (∀ n : Int, calculatePointsForDisposal (some resp) action risk ab ctl = some n →
        0 ≤ n ∧ n ≤ 100)
    ∧ calculatePointsForDisposal none ActionTaken.skipped risk ab ctl = some 0
    ∧ (calculatePointsForDisposal none ActionTaken.takeBack risk ab ctl
        = some (if risk = Impact.critical ∧ ab = true then 100
            else if risk = Impact.critical then 90
            else if risk = Impact.high then 70
            else if risk = Impact.medium then 50
            else 30))
    ∧ (calculatePointsForDisposal none ActionTaken.sealedDisposal risk ab ctl
        = some (if risk = Impact.critical then 40
            else if risk = Impact.high then 30
            else 20))
    ∧ calculatePointsForDisposal none ActionTaken.other risk ab ctl = some 10
    ∧ ∀ (impact : Option Impact) (method : String) (llm : Option PointsResult),
        handleConfirmPoints ActionTaken.skipped impact ab ctl method llm = some 0 := by
  refine ⟨?_, rfl, ?_, ?_, rfl, ?_⟩
  · intro n hn
    simp only [calculatePointsForDisposal] at hn
    split at hn
    · injection hn with hn2
      subst hn2
      omega
    · exact Option.noConfusion hn
  · cases risk <;> cases ab <;> rfl
  · cases risk <;> rfl
  · intro impact method llm
    cases impact <;> rfl

/-- Witness for C5: an out-of-range numeric reply is clamped to 100, and a
skipped action records 0 points without consulting the LLM. -/
theorem C5_witness :
    calculatePointsForDisposal (some { points := some (JsonVal.jnum 250), point := none })
        ActionTaken.takeBack Impact.low false false = some 100
    ∧ (0 ≤ (100 : Int) ∧ (100 : Int) ≤ 100)
    ∧ handleConfirmPoints ActionTaken.skipped (some Impact.critical) false false
        "Hospital Take-Back" none = some 0 :=
  ⟨by decide,
   (C5_points_bounded_and_fallback { points := some (JsonVal.jnum 250), point := none }
      ActionTaken.takeBack Impact.low false false).1 100 (by decide),
   (C5_points_bounded_and_fallback { points := some (JsonVal.jnum 250), point := none }
      ActionTaken.takeBack Impact.low false false).2.2.2.2.2 (some Impact.critical)
      "Hospital Take-Back" none⟩

/-! ## C6: fish selection -/

/-- C6: selectFishForImpact always returns one of the 13 fish types; when
the call fails or the normalized reply is not a valid fish type, the result
is the fallback that depends only on the risk level and the antibiotic
flag, with the tier mapping whale, shark, tuna, salmon, goldfish, mackerel;
a valid normalized reply is returned as parsed. -/
theorem C6_fish_selection (llm : Option String) (risk : Impact) (ab ctl : Bool) :
    selectFishForImpact llm risk ab ctl ∈ allFishTypes
    ∧ (llm = none → selectFishForImpact llm risk ab ctl = fallbackFishForImpact risk ab)
    ∧ (∀ r : String, llm = some r →
        FishType.ofString (normalizeFishResponse r) = none →
        selectFishForImpact llm risk ab ctl = fallbackFishForImpact risk ab)
    ∧ (∀ (r : String) (ft : FishType), llm = some r →
        FishType.ofString (normalizeFishResponse r) = some ft →
        selectFishForImpact llm risk ab ctl = ft)
    ∧ (fallbackFishForImpact Impact.critical true = FishType.whale
       ∧ fallbackFishForImpact Impact.critical false = FishType.shark
       ∧ fallbackFishForImpact Impact.high true = FishType.tuna
       ∧ fallbackFishForImpact Impact.high false = FishType.salmon
       ∧ fallbackFishForImpact Impact.medium ab = FishType.goldfish
       ∧ fallbackFishForImpact Impact.low ab = FishType.mackerel) := by
  refine ⟨?_, ?_, ?_, ?_, rfl, rfl, rfl, rfl, rfl, rfl⟩
  · cases h : selectFishForImpact llm risk ab ctl <;> simp [allFishTypes]
  · intro h
    subst h
    rfl
  · intro r hr hnone
    subst hr
    simp [selectFishForImpact, hnone]
  · intro r ft hr hsome
    subst hr
    simp [selectFishForImpact, hsome]

/-- Witness for C6: an invalid reply falls back by risk tier, and a valid
reply with surrounding spaces and capitals is normalized and accepted. -/
theorem C6_witness :
    selectFishForImpact (some "dolphin") Impact.high true false
      = fallbackFishForImpact Impact.high true
    ∧ fallbackFishForImpact Impact.high true = FishType.tuna
    ∧ selectFishForImpact (some " SHARK ") Impact.low false false = FishType.shark :=
  ⟨(C6_fish_selection (some "dolphin") Impact.high true false).2.2.1 "dolphin" rfl
      (by decide),
   (C6_fish_selection (some "dolphin") Impact.high true false).2.2.2.2.2.2.1,
   (C6_fish_selection (some " SHARK ") Impact.low false false).2.2.2.1
      " SHARK " FishType.shark rfl (by decide)⟩

/-! ## C7: OCR error reduction -/

/-- C7: extractTextFromImage never rejects (it is total in the embedding);
every internal failure resolves to the fixed failure record with confidence
0, and on success the confidence is clamped into the range 0 to 100 and the
text is the whitespace-normalized recognized text, or the fixed placeholder
when that normalized text is empty. -/
theorem C7_ocr_error_reduction (data : OcrData) :
    extractTextFromImage none = { text := "Text extraction failed", confidence := 0 }
    ∧ 0 ≤ (extractTextFromImage (some data)).confidence
    ∧ (extractTextFromImage (some data)).confidence ≤ 100
    ∧ (extractTextFromImage (some data)).confidence = min 100 (max 0 data.confidence)
    ∧ (cleanOcrText data.text = "" →
        (extractTextFromImage (some data)).text = "No text detected")
    ∧ (cleanOcrText data.text ≠ "" →
        (extractTextFromImage (some data)).text = cleanOcrText data.text) := by
  refine ⟨rfl, ?_, ?_, rfl, ?_, ?_⟩
  · show 0 ≤ min 100 (max 0 data.confidence)
    omega
  · show min 100 (max 0 data.confidence) ≤ 100
    omega
  · intro hempty
    simp [extractTextFromImage, hempty]
  · intro hne
    simp [extractTextFromImage, hne]

/-- Witness for C7: a noisy multi-line recognition is cleaned up and an
overshooting confidence is clamped. -/
theorem C7_witness :
    (extractTextFromImage (some { text := "  Panadol\n 500mg   tablets ", confidence := 250 })).text = "Panadol 500mg tablets"
    ∧ (extractTextFromImage (some { text := "  Panadol\n 500mg   tablets ", confidence := 250 })).confidence ≤ 100 := by
  constructor
  · have h := (C7_ocr_error_reduction { text := "  Panadol\n 500mg   tablets ", confidence := 250 }).2.2.2.2.2 (by decide)
    rw [h]
    decide
  · exact (C7_ocr_error_reduction { text := "  Panadol\n 500mg   tablets ", confidence := 250 }).2.2.1

/-! ## C8: scan wizard sequencing -/

/-- C8: over the step set of the page, the confirm step is only ever entered
from the report step through the confirm-action event with a present current
medicine, and that transition prepends exactly one new scan record to the
game history while leaving the existing records unchanged; going back from
confirm always returns to report, and the report step is otherwise only
entered from scan or multiple, through a detection event that installs a
medicine (the only other way into report being the back event from
confirm, which the claim itself lists). -/
theorem C8_scan_wizard_sequencing (s s2 : ScanPageState) (e : ScanEvent)
    (hstep : scanPageStep s e = some s2) :
    ((s2.step = ScanStep.confirm ∧ s.step ≠ ScanStep.confirm) →
      s.step = ScanStep.report ∧ e.isConfirmAction = true ∧ s.currentMedicine ≠ none
      ∧ ∃ r : ScanRecord, s2.game.scanHistory = r :: s.game.scanHistory)
    ∧ (e = ScanEvent.back → s.step = ScanStep.confirm → s2.step = ScanStep.report)
    ∧ ((s2.step = ScanStep.report ∧ s.step ≠ ScanStep.report) →
        (((s.step = ScanStep.scan ∨ s.step = ScanStep.multiple)
            ∧ s2.currentMedicine ≠ none)
          ∨ (e = ScanEvent.back ∧ s.step = ScanStep.confirm))) := by
  cases e with
  | detection m conf text imgUrl =>
    simp only [scanPageStep] at hstep
    split at hstep
    case isTrue hcond =>
      injection hstep with hs2
      subst hs2
      exact ⟨fun hc => absurd hc.1 (by simp), fun he => ScanEvent.noConfusion he,
             fun _ => Or.inl ⟨Or.inl hcond, by simp⟩⟩
    case isFalse _ => exact Option.noConfusion hstep
  | multipleDetections meds =>
    simp only [scanPageStep] at hstep
    split at hstep
    · injection hstep with hs2
      subst hs2
      exact ⟨fun hc => absurd hc.1 (by simp), fun he => ScanEvent.noConfusion he,
             fun hc => absurd hc.1 (by simp)⟩
    · exact Option.noConfusion hstep
  | medicineSelect m conf text imgUrl =>
    simp only [scanPageStep] at hstep
    split at hstep
    case isTrue hcond =>
      injection hstep with hs2
      subst hs2
      exact ⟨fun hc => absurd hc.1 (by simp), fun he => ScanEvent.noConfusion he,
             fun _ => Or.inl ⟨Or.inr hcond.1, by simp⟩⟩
    case isFalse _ => exact Option.noConfusion hstep
  | confirmAction fishType newScanId tnow =>
    simp only [scanPageStep] at hstep
    split at hstep
    · next hrep =>
      split at hstep
      · next m hmed =>
        injection hstep with hs2
        subst hs2
        refine ⟨fun _ => ⟨hrep, rfl, by simp [hmed], ?_⟩,
                fun he => ScanEvent.noConfusion he, fun hc => absurd hc.1 (by simp)⟩
        exact ⟨mkScanRecord newScanId tnow
          { medicineId := m.id, medicineName := m.brandNames.headD "",
            detectedText := s.detectedText, confidence := s.confidence,
            disposalMethod := m.primaryMethod,
            safetyRating := m.primarySafetyRating,
            pointsEarned := 0, imageUrl := s.imageUrl },
          by cases fishType <;> rfl⟩
      · exact Option.noConfusion hstep
    · exact Option.noConfusion hstep
  | completeAction =>
    simp only [scanPageStep] at hstep
    split at hstep
    · split at hstep
      · split at hstep
        · split at hstep
          · injection hstep with hs2
            subst hs2
            exact ⟨fun hc => absurd hc.1 (by simp),
                   fun he => ScanEvent.noConfusion he,
                   fun hc => absurd hc.1 (by simp)⟩
          · exact Option.noConfusion hstep
        · exact Option.noConfusion hstep
      · exact Option.noConfusion hstep
    · exact Option.noConfusion hstep
  | back =>
    simp only [scanPageStep] at hstep
    split at hstep
    · next hrep =>
      split at hstep <;>
        (injection hstep with hs2
         subst hs2
         exact ⟨fun hc => absurd hc.1 (by simp),
                fun _ hconf => absurd (hrep ▸ hconf) (by simp),
                fun hc => absurd hc.2 (by simp [hrep])⟩)
    · next hconf =>
      injection hstep with hs2
      subst hs2
      exact ⟨fun hc => absurd hc.1 (by simp), fun _ _ => rfl,
             fun _ => Or.inr ⟨rfl, hconf⟩⟩
    · next hmul =>
      injection hstep with hs2
      subst hs2
      exact ⟨fun hc => absurd hc.1 (by simp),
             fun _ hconf => absurd (hmul ▸ hconf) (by simp),
             fun hc => absurd hc.1 (by simp)⟩
    · exact Option.noConfusion hstep

/-- Witness for C8: confirming the action from a concrete report state adds
exactly one scan record and moves to the confirm step. -/
theorem C8_witness :
    ∃ r : ScanRecord,
      sampleConfirmState.game.scanHistory = r :: sampleReportState.game.scanHistory :=
  ((C8_scan_wizard_sequencing sampleReportState sampleConfirmState
      (ScanEvent.confirmAction none "scan-9" 7) (by decide)).1
    ⟨by decide, by decide⟩).2.2.2

end DisposAI
